import Mathlib

/-!
Verification of the slot-booking engine of a home-services marketplace
backend (`backend/app/api.py`).  The Python functions
`validate_time_slot`, `calculate_required_slots`, `generate_slot_times`,
`check_provider_capacity`, `check_slot_available` and the booking
endpoint `create_booking` are shallowly embedded as executable Lean
functions.  The relational store is modelled as lists of rows; SQL
queries become the corresponding list operations; times of day are
minutes since midnight (the Python code works on zero-padded `"HH:MM"`
strings, whose ordering and equality agree with the numeric encoding);
dates are proleptic-Gregorian ordinals (days since 0001-01-01), so that
`date + timedelta(days=1)` becomes `d + 1`.
-/

namespace Booking

/-- Decimal digit value of a character, `none` when not a digit
(the building block of `datetime.strptime` field matching). -/
def digitVal (c : Char) : Option Nat :=
  if 48 ≤ c.toNat ∧ c.toNat ≤ 57 then some (c.toNat - 48) else none

/-- `datetime.strptime(s, "%H:%M")`, returning minutes since midnight.
CPython matches `%H` by `2[0-3]|[0-1]\d|\d` (one or two digits, value at
most 23, two-digit tries first), `%M` by `[0-5]\d|\d`, with the whole
string consumed; anything else raises `ValueError`, here `none`. -/
def parseHM (s : String) : Option Nat :=
  match s.toList with
  | [a, ':', c] =>
    match digitVal a, digitVal c with
    | some h, some m => some (h * 60 + m)
    | _, _ => none
  | [a, b, ':', d] =>
    match digitVal a, digitVal b, digitVal d with
    | some h1, some h2, some m =>
      if h1 * 10 + h2 ≤ 23 then some ((h1 * 10 + h2) * 60 + m) else none
    | _, _, _ => none
  | [a, ':', c, d] =>
    match digitVal a, digitVal c, digitVal d with
    | some h, some m1, some m2 =>
      if m1 * 10 + m2 ≤ 59 then some (h * 60 + (m1 * 10 + m2)) else none
    | _, _, _ => none
  | [a, b, ':', d, e] =>
    match digitVal a, digitVal b, digitVal d, digitVal e with
    | some h1, some h2, some m1, some m2 =>
      if h1 * 10 + h2 ≤ 23 ∧ m1 * 10 + m2 ≤ 59 then
        some ((h1 * 10 + h2) * 60 + (m1 * 10 + m2))
      else none
    | _, _, _, _ => none
  | _ => none

/-- Two-digit zero padding, as `strftime` does for `%H` and `%M`. -/
def pad2 (n : Nat) : String :=
  if n < 10 then "0" ++ toString n else toString n

/-- `t.strftime("%H:%M")` for a time of day `t` in minutes (`t < 1440`). -/
def formatHM (t : Nat) : String :=
  pad2 (t / 60 % 24) ++ ":" ++ pad2 (t % 60)

/-- `validate_time_slot` (api.py:110): parse `"%H:%M"`, then require the
minute component to be 0 or 30; returns `(ok, error-message)`. -/
def validate_time_slot (time_str : String) : Bool × Option String :=
  match parseHM time_str with
  | none => (false, some "Invalid time format. Use HH:MM")
  | some t =>
    if t % 60 = 0 ∨ t % 60 = 30 then (true, none)
    else (false,
      some "Time slots must be on 30-minute boundaries (e.g., 09:00, 09:30)")

/-- `calculate_required_slots` (api.py:124): `math.ceil(duration / 30)`,
for a non-negative duration in minutes. -/
def calculate_required_slots (duration_minutes : Nat) : Nat :=
  (duration_minutes + 29) / 30

/-- Core of `generate_slot_times` (api.py:129) on the minute encoding:
emit the current time of day (the `strftime` of the running `datetime`,
i.e. the running minute count modulo one day), then advance 30 minutes. -/
def genSlots (start : Nat) : Nat → List Nat
  | 0 => []
  | n + 1 => (start % 1440) :: genSlots (start + 30) n

/-- `generate_slot_times` (api.py:129) at the string interface: parse the
start time with `strptime "%H:%M"` (raising, i.e. `none`, on malformed
input), then emit `num_slots` consecutive 30-minute-spaced times as
zero-padded `"HH:MM"` strings. -/
def generate_slot_times (start_time : String) (num_slots : Nat) :
    Option (List String) :=
  (parseHM start_time).map fun t => (genSlots t num_slots).map formatHM

/-! ## Calendar dates (`datetime.strptime "%Y-%m-%d"` and `date.toordinal`) -/

/-- Gregorian leap-year rule (`calendar.isleap`). -/
def isLeap (y : Nat) : Bool :=
  (y % 4 == 0 && y % 100 != 0) || y % 400 == 0

/-- Number of days in month `m` of year `y`. -/
def daysInMonth (y m : Nat) : Nat :=
  if m = 1 ∨ m = 3 ∨ m = 5 ∨ m = 7 ∨ m = 8 ∨ m = 10 ∨ m = 12 then 31
  else if m = 2 then (if isLeap y then 29 else 28)
  else 30

/-- Days in year `y` strictly before month `m`. -/
def daysBeforeMonth (y m : Nat) : Nat :=
  ((List.range (m - 1)).map fun i => daysInMonth y (i + 1)).sum

/-- `date(y, m, d).toordinal()`: days since 0001-01-01, day one being
ordinal 1 (proleptic Gregorian). -/
def toOrdinal (y m d : Nat) : Nat :=
  365 * (y - 1) + (y - 1) / 4 - (y - 1) / 100 + (y - 1) / 400
    + daysBeforeMonth y m + d

/-- `datetime.strptime(s, "%Y-%m-%d").date()` as an ordinal.  CPython
matches `%Y` by exactly four digits, `%m` by `1[0-2]|0[1-9]|[1-9]` and
`%d` by `3[01]|[12]\d|0[1-9]|[1-9]`; the `date` constructor then demands
year at least 1 and a day that exists in the month. -/
def parseDate (s : String) : Option Nat :=
  let mk : Nat → Nat → Nat → Option Nat := fun y m d =>
    if 1 ≤ y ∧ 1 ≤ m ∧ m ≤ 12 ∧ 1 ≤ d ∧ d ≤ daysInMonth y m then
      some (toOrdinal y m d)
    else none
  match s.toList with
  | [a, b, c, d, '-', e, f, '-', g, h] =>
    match digitVal a, digitVal b, digitVal c, digitVal d,
          digitVal e, digitVal f, digitVal g, digitVal h with
    | some y1, some y2, some y3, some y4, some m1, some m2, some d1, some d2 =>
      mk (y1 * 1000 + y2 * 100 + y3 * 10 + y4) (m1 * 10 + m2) (d1 * 10 + d2)
    | _, _, _, _, _, _, _, _ => none
  | [a, b, c, d, '-', e, '-', g, h] =>
    match digitVal a, digitVal b, digitVal c, digitVal d,
          digitVal e, digitVal g, digitVal h with
    | some y1, some y2, some y3, some y4, some m1, some d1, some d2 =>
      mk (y1 * 1000 + y2 * 100 + y3 * 10 + y4) m1 (d1 * 10 + d2)
    | _, _, _, _, _, _, _ => none
  | [a, b, c, d, '-', e, f, '-', g] =>
    match digitVal a, digitVal b, digitVal c, digitVal d,
          digitVal e, digitVal f, digitVal g with
    | some y1, some y2, some y3, some y4, some m1, some m2, some d1 =>
      mk (y1 * 1000 + y2 * 100 + y3 * 10 + y4) (m1 * 10 + m2) d1
    | _, _, _, _, _, _, _ => none
  | [a, b, c, d, '-', e, '-', g] =>
    match digitVal a, digitVal b, digitVal c, digitVal d,
          digitVal e, digitVal g with
    | some y1, some y2, some y3, some y4, some m1, some d1 =>
      mk (y1 * 1000 + y2 * 100 + y3 * 10 + y4) m1 d1
    | _, _, _, _, _, _ => none
  | _ => none

/-! ## The relational store -/

/-- A `service_providers` row (the columns this subsystem reads). -/
structure Provider where
  provider_id : Nat
  max_concurrent_jobs : Nat
  is_active : Bool
  working_hours_start : Nat
  working_hours_end : Nat
  deriving DecidableEq, Repr

/-- A `provider_services` row. -/
structure PService where
  provider_id : Nat
  package_id : Nat
  is_available : Bool
  deriving DecidableEq, Repr

/-- A `provider_availability` row (explicit unavailability override). -/
structure PAvail where
  provider_id : Nat
  date : Nat
  start_time : Nat
  end_time : Nat
  is_available : Bool
  deriving DecidableEq, Repr

/-- `service_packages.package_type`. -/
inductive PkgType where
  | single
  | bundle
  deriving DecidableEq, Repr

/-- A `service_packages` row (the columns this subsystem reads). -/
structure Package where
  package_id : Nat
  duration_minutes : Nat
  package_type : PkgType
  deriving DecidableEq, Repr

/-- A `bundle_items` row. -/
structure BundleItem where
  bundle_package_id : Nat
  included_package_id : Nat
  deriving DecidableEq, Repr

/-- A `booking_time_slots` row. -/
structure SlotRow where
  booking_id : Nat
  provider_id : Nat
  slot_date : Nat
  slot_time : Nat
  status : String
  deriving DecidableEq, Repr

/-- A `bookings` row (the columns `create_booking` writes). -/
structure BookingRow where
  booking_id : Nat
  user_id : Nat
  package_id : Nat
  provider_id : Nat
  booking_type : String
  booking_status : String
  scheduled_date : Nat
  service_address : String
  special_instructions : Option String
  deriving DecidableEq, Repr

/-- A `roles` row. -/
structure Role where
  role_id : Nat
  role_name : String
  deriving DecidableEq, Repr

/-- A `user_roles` row. -/
structure UserRole where
  user_id : Nat
  role_id : Nat
  deriving DecidableEq, Repr

/-- A `users` row (only the id matters here). -/
structure User where
  id : Nat
  deriving DecidableEq, Repr

/-- An `urgent_work_items` row (the columns `create_booking` touches). -/
structure WorkItem where
  urgent_item_id : Nat
  is_resolved : Bool
  deriving DecidableEq, Repr

/-- The transactional store: each table as a list of rows in the order
the store returns them, plus the sequence feeding `booking_id`. -/
structure Store where
  providers : List Provider
  provider_services : List PService
  provider_availability : List PAvail
  packages : List Package
  bundle_items : List BundleItem
  bookings : List BookingRow
  booking_time_slots : List SlotRow
  roles : List Role
  user_roles : List UserRole
  users : List User
  urgent_work_items : List WorkItem
  booking_urgent_items : List (Nat × Nat)
  next_booking_id : Nat
  deriving DecidableEq, Repr

/-- `SELECT COUNT(DISTINCT booking_id) FROM booking_time_slots WHERE
provider_id = %s AND slot_date = %s AND slot_time = %s AND
status = 'booked'` (api.py:153). -/
def countActiveJobs (S : Store) (pid date t : Nat) : Nat :=
  (((S.booking_time_slots.filter fun r =>
      r.provider_id == pid && r.slot_date == date && r.slot_time == t &&
        r.status == "booked").map fun r => r.booking_id).toFinset).card

/-- `check_provider_capacity` (api.py:139): look up the provider's
`max_concurrent_jobs` (first row by id; absence fails with "Provider not
found"), count concurrent bookings at this slot, fail when the count has
reached the limit. -/
def check_provider_capacity (S : Store) (pid date t : Nat) :
    Bool × Option String :=
  match S.providers.find? fun p => p.provider_id == pid with
  | none => (false, some "Provider not found")
  | some p =>
    let active_jobs := countActiveJobs S pid date t
    if p.max_concurrent_jobs ≤ active_jobs then
      (false, some ("Provider at capacity (" ++ toString active_jobs ++ "/"
        ++ toString p.max_concurrent_jobs ++ " jobs)"))
    else (true, none)

/-- `check_slot_available` (api.py:173): the capacity check first,
short-circuiting on failure; then the unavailability-override query
`start_time <= %s AND end_time > %s AND is_available = FALSE`. -/
def check_slot_available (S : Store) (pid date t : Nat) :
    Bool × Option String :=
  match check_provider_capacity S pid date t with
  | (false, err) => (false, err)
  | (true, _) =>
    if S.provider_availability.any fun a =>
        a.provider_id == pid && a.date == date &&
          a.start_time ≤ t && t < a.end_time && a.is_available == false then
      (false, some "Provider unavailable at this time")
    else (true, none)

/-! ## `create_booking` (api.py:663) -/

/-- The structured content of the error responses `create_booking` can
produce (each constructor corresponds to one `jsonify({"error": ...})`
site; `noAvailabilityOn` carries the date interpolated into
`f"No availability on {current_date}. Cannot complete booking."`). -/
inductive BErr where
  | missingField (field : String)
  | invalidTime (msg : String)
  | badDate
  | packageNotFound
  | noProviders (bundle : Bool)
  | noAvailabilityOn (date : Nat)
  | notEnoughAvailability
  | noCustomerUsers
  deriving DecidableEq, Repr

/-- The 201 response body of `create_booking`. -/
structure BookingPayload where
  booking_id : Nat
  booking_reference : Nat
  booking_status : String
  slots_reserved : Nat
  deriving DecidableEq, Repr

/-- Equality of `Except` results is decidable componentwise (used to
evaluate concrete runs of `create_booking`). -/
instance instDecEqExcept {e a : Type} [DecidableEq e] [DecidableEq a] :
    DecidableEq (Except e a)
  | .ok x, .ok y =>
    if h : x = y then .isTrue (by rw [h]) else .isFalse (by simp [h])
  | .ok _, .error _ => .isFalse (by simp)
  | .error _, .ok _ => .isFalse (by simp)
  | .error x, .error y =>
    if h : x = y then .isTrue (by rw [h]) else .isFalse (by simp [h])

/-- The JSON request body of `create_booking`; `none` is an absent key. -/
structure Request where
  package_id : Option Nat
  booking_type : Option String
  service_address : Option String
  start_date : Option String
  start_time : Option String
  provider_id : Option Nat
  special_instructions : Option String
  urgent_item_id : Option Nat
  deriving DecidableEq, Repr

/-- The pre-store stage of `create_booking` (api.py:669-687): the
required-field presence loop in its listed order, then
`validate_time_slot`, then `datetime.strptime(start_date, "%Y-%m-%d")`
(whose `ValueError` surfaces via the handler's generic except).  All of
this happens before `get_db_connection()`, so it is a pure function of
the request.  Returns the parsed `(package_id, start_date, start_time)`. -/
def validateStage (req : Request) : Except BErr (Nat × Nat × Nat) :=
  match req.package_id with
  | none => .error (.missingField "package_id")
  | some pkgId =>
    match req.booking_type with
    | none => .error (.missingField "booking_type")
    | some _ =>
      match req.service_address with
      | none => .error (.missingField "service_address")
      | some _ =>
        match req.start_date with
        | none => .error (.missingField "start_date")
        | some ds =>
          match req.start_time with
          | none => .error (.missingField "start_time")
          | some ts =>
            match parseHM ts with
            | none => .error (.invalidTime "Invalid time format. Use HH:MM")
            | some t =>
              if t % 60 = 0 ∨ t % 60 = 30 then
                match parseDate ds with
                | none => .error .badDate
                | some d => .ok (pkgId, d, t)
              else .error (.invalidTime
                "Time slots must be on 30-minute boundaries (e.g., 09:00, 09:30)")

/-- The bundle-duration query of `create_booking` and
`get_available_slots` (api.py:691-713): for a bundle, the inner join of
its `bundle_items` with `service_packages`, summed over
`duration_minutes`; `COALESCE` falls back to the bundle's own stored
duration when the join is empty.  Single packages use their stored
duration directly. -/
def effectiveDuration (S : Store) (pkg : Package) : Nat :=
  match pkg.package_type with
  | .bundle =>
    let ds := (S.bundle_items.filter fun bi =>
        bi.bundle_package_id == pkg.package_id).filterMap fun bi =>
      (S.packages.find? fun p => p.package_id == bi.included_package_id).map
        fun p => p.duration_minutes
    if ds.isEmpty then pkg.duration_minutes else ds.sum
  | .single => pkg.duration_minutes

/-- The bundle candidate query (api.py:726-752 and api.py:528-555): an
active provider such that no bundle item lacks a matching available
`provider_services` row (the outer `NOT EXISTS`), and at least one
bundle item has one (the `EXISTS`). -/
def eligibleBundleProviders (S : Store) (bundleId : Nat) : List Nat :=
  (S.providers.filter fun sp =>
    sp.is_active &&
    ((S.bundle_items.filter fun bi => bi.bundle_package_id == bundleId).all
      fun bi => S.provider_services.any fun ps =>
        ps.provider_id == sp.provider_id &&
        ps.package_id == bi.included_package_id && ps.is_available) &&
    (S.bundle_items.any fun bi =>
      bi.bundle_package_id == bundleId &&
      S.provider_services.any fun ps =>
        ps.package_id == bi.included_package_id &&
        ps.provider_id == sp.provider_id && ps.is_available)).map
    fun sp => sp.provider_id

/-- The single-package candidate query with `LIMIT 1` (api.py:758-767):
the first `provider_services` row for this package that is available and
whose provider is active. -/
def firstSingleProvider (S : Store) (packageId : Nat) : Option Nat :=
  (S.provider_services.find? fun ps =>
    ps.package_id == packageId && ps.is_available &&
      S.providers.any fun sp =>
        sp.provider_id == ps.provider_id && sp.is_active).map
    fun ps => ps.provider_id

/-- Provider resolution in `create_booking` (api.py:720-785): an
explicit `provider_id` wins when truthy (`if not provider_id` also
treats id 0 as absent); otherwise the first eligible provider for the
package's type. -/
def resolveProvider (S : Store) (req : Request) (pkg : Package) : Option Nat :=
  match req.provider_id with
  | some pid => if pid = 0 then autoProvider S pkg else some pid
  | none => autoProvider S pkg
where
  /-- The `LIMIT 1` candidate lookup used when no provider was given. -/
  autoProvider (S : Store) (pkg : Package) : Option Nat :=
    match pkg.package_type with
    | .bundle => (eligibleBundleProviders S pkg.package_id).head?
    | .single => firstSingleProvider S pkg.package_id

/-- The multi-day allocation loop of `create_booking` (api.py:787-844).
`fuel` is `max_days - days_checked` (so 30 at entry); each day tries
`min remaining 20` consecutive slots from the day's start time, keeps
the prefix that passes `check_slot_available` (the inner loop breaks at
the first unavailable slot), and on overflow advances one calendar day,
restarting at 09:00 (minute 540).  A day that books nothing fails with
"No availability on {date}"; an exhausted horizon fails with "Not
enough availability within 30 days". -/
def allocDays (S : Store) (pid : Nat) :
    Nat → Nat → Nat → Nat → List (Nat × Nat) → Except BErr (List (Nat × Nat))
  | _, 0, _, _, acc => .ok acc
  | 0, _ + 1, _, _, _ => .error .notEnoughAvailability
  | fuel + 1, remaining + 1, date, time, acc =>
    let slot_times := genSlots time (min (remaining + 1) 20)
    let dayTimes := slot_times.takeWhile fun t =>
      (check_slot_available S pid date t).1
    let acc' := acc ++ dayTimes.map fun t => (date, t)
    if remaining + 1 - dayTimes.length = 0 then .ok acc'
    else if dayTimes.length = 0 then .error (.noAvailabilityOn date)
    else allocDays S pid fuel (remaining + 1 - dayTimes.length) (date + 1) 540 acc'

/-- The default-user query (api.py:846-854): the first user joined to
`user_roles` at the role id of the role named `customer` (`LIMIT 1`);
`none` both when no such role and when no such user exists. -/
def defaultCustomerId (S : Store) : Option Nat :=
  match S.roles.find? fun r => r.role_name == "customer" with
  | none => none
  | some r =>
    ((S.users.filter fun u =>
      S.user_roles.any fun ur =>
        ur.user_id == u.id && ur.role_id == r.role_id).map fun u => u.id).head?

/-- `create_booking` (api.py:663-929) as a function from store and
request to response and post-state.  Validation, package lookup with its
effective duration, provider resolution, the multi-day allocation loop,
the default-user lookup, then — only when everything succeeded — the
booking insert, one `booking_time_slots` insert per reserved pair, and
the optional urgent-item linking, all in one transaction.  The
`booking_reference` is store-generated; it is modelled by the fresh
booking id. -/
def create_booking (S : Store) (req : Request) :
    Except BErr BookingPayload × Store :=
  match validateStage req with
  | .error e => (.error e, S)
  | .ok (pkgId, start_date, start_time) =>
    match S.packages.find? fun p => p.package_id == pkgId with
    | none => (.error .packageNotFound, S)
    | some pkg =>
      let required_slots := calculate_required_slots (effectiveDuration S pkg)
      match resolveProvider S req pkg with
      | none => (.error (.noProviders (pkg.package_type == .bundle)), S)
      | some provider_id =>
        match allocDays S provider_id 30 required_slots start_date start_time [] with
        | .error e => (.error e, S)
        | .ok slots_to_book =>
          match defaultCustomerId S with
          | none => (.error .noCustomerUsers, S)
          | some default_user_id =>
            let bid := S.next_booking_id
            let S' : Store :=
              { S with
                bookings := S.bookings ++
                  [{ booking_id := bid
                     user_id := default_user_id
                     package_id := pkgId
                     provider_id := provider_id
                     booking_type := (req.booking_type.getD "")
                     booking_status := "pending"
                     scheduled_date := start_date
                     service_address := (req.service_address.getD "")
                     special_instructions := req.special_instructions }]
                booking_time_slots := S.booking_time_slots ++
                  slots_to_book.map fun p =>
                    { booking_id := bid, provider_id := provider_id,
                      slot_date := p.1, slot_time := p.2, status := "booked" }
                booking_urgent_items :=
                  match req.urgent_item_id with
                  | some uid => if uid = 0 then S.booking_urgent_items
                      else S.booking_urgent_items ++ [(bid, uid)]
                  | none => S.booking_urgent_items
                urgent_work_items :=
                  match req.urgent_item_id with
                  | some uid => if uid = 0 then S.urgent_work_items
                      else S.urgent_work_items.map fun w =>
                        if w.urgent_item_id == uid then
                          { w with is_resolved := true }
                        else w
                  | none => S.urgent_work_items
                next_booking_id := bid + 1 }
            (.ok { booking_id := bid, booking_reference := bid,
                   booking_status := "pending",
                   slots_reserved := slots_to_book.length }, S')

/-- The empty store (fresh database). -/
def emptyStore : Store :=
  { providers := [], provider_services := [], provider_availability := [],
    packages := [], bundle_items := [], bookings := [], booking_time_slots := [],
    roles := [], user_roles := [], users := [], urgent_work_items := [],
    booking_urgent_items := [], next_booking_id := 1 }

/-- A store with one active provider (id 1, one concurrent job, working
hours 09:00-17:00), one 30-minute single package (id 7) the provider
offers, one customer user (id 11), and no bookings. -/
def storeA : Store :=
  { providers := [{ provider_id := 1, max_concurrent_jobs := 1, is_active := true,
                    working_hours_start := 540, working_hours_end := 1020 }],
    provider_services := [{ provider_id := 1, package_id := 7, is_available := true }],
    provider_availability := [],
    packages := [{ package_id := 7, duration_minutes := 30, package_type := .single }],
    bundle_items := [], bookings := [], booking_time_slots := [],
    roles := [{ role_id := 3, role_name := "customer" }],
    user_roles := [{ user_id := 11, role_id := 3 }],
    users := [{ id := 11 }],
    urgent_work_items := [], booking_urgent_items := [],
    next_booking_id := 100 }

/-- A request for package 7 from provider 1 on 2025-06-15 at 20:00 —
three hours after the provider's working day ends. -/
def reqA : Request :=
  { package_id := some 7, booking_type := some "residential",
    service_address := some "1 Main St", start_date := some "2025-06-15",
    start_time := some "20:00", provider_id := some 1,
    special_instructions := none, urgent_item_id := none }

/-- A request for package 7 from provider 1 at 09:00 on a date long in
the past (2020-01-01). -/
def reqPast : Request :=
  { reqA with start_date := some "2020-01-01", start_time := some "09:00" }

/-- A store with a three-item bundle (package 20 including 21, 22, 23):
provider 1 offers only two of the three included packages, provider 2
offers all three. -/
def storeB : Store :=
  { emptyStore with
    providers := [{ provider_id := 1, max_concurrent_jobs := 1, is_active := true,
                    working_hours_start := 540, working_hours_end := 1020 },
                  { provider_id := 2, max_concurrent_jobs := 1, is_active := true,
                    working_hours_start := 540, working_hours_end := 1020 }],
    provider_services := [{ provider_id := 1, package_id := 21, is_available := true },
                          { provider_id := 1, package_id := 22, is_available := true },
                          { provider_id := 2, package_id := 21, is_available := true },
                          { provider_id := 2, package_id := 22, is_available := true },
                          { provider_id := 2, package_id := 23, is_available := true }],
    packages := [{ package_id := 20, duration_minutes := 90, package_type := .bundle },
                 { package_id := 21, duration_minutes := 30, package_type := .single },
                 { package_id := 22, duration_minutes := 30, package_type := .single },
                 { package_id := 23, duration_minutes := 30, package_type := .single }],
    bundle_items := [{ bundle_package_id := 20, included_package_id := 21 },
                     { bundle_package_id := 20, included_package_id := 22 },
                     { bundle_package_id := 20, included_package_id := 23 }] }

/-- `storeA` with provider 1 already holding a booked slot at 09:00 on
2025-06-15 (booking 50), saturating its single concurrent job. -/
def storeFull : Store :=
  { storeA with
    booking_time_slots := [{ booking_id := 50, provider_id := 1,
                             slot_date := 739417, slot_time := 540,
                             status := "booked" }] }

/-- `reqA` at 09:00 instead of 20:00. -/
def reqB : Request :=
  { reqA with start_time := some "09:00" }

/-- `reqA` with no `package_id` key. -/
def reqMissing : Request :=
  { reqA with package_id := none }

/-- A store with a 750-minute package (id 8, 25 slots) offered by the
single active provider 1, whose calendar is fully open. -/
def storeOpen : Store :=
  { storeA with
    providers := [{ provider_id := 1, max_concurrent_jobs := 3, is_active := true,
                    working_hours_start := 540, working_hours_end := 1020 }],
    provider_services := [{ provider_id := 1, package_id := 8, is_available := true }],
    packages := [{ package_id := 8, duration_minutes := 750, package_type := .single }] }

/-- A request for the 25-slot package 8 starting 2025-06-15 at 09:00. -/
def reqC : Request :=
  { reqA with package_id := some 8, start_time := some "09:00" }

/-- The capacity invariant as a checkable store predicate: at the key of
every booked slot row, the number of distinct bookings does not exceed
the owning provider's `max_concurrent_jobs` (keys with no rows have
count zero, so checking at row keys suffices). -/
def capBoundB (S : Store) : Bool :=
  S.booking_time_slots.all fun r =>
    match S.providers.find? fun q => q.provider_id == r.provider_id with
    | none => true
    | some p =>
      countActiveJobs S r.provider_id r.slot_date r.slot_time ≤
        p.max_concurrent_jobs

/-! ## Helper lemmas -/

theorem genSlots_eq_map :
    ∀ (n start : Nat),
      genSlots start n = (List.range n).map fun i => (start + 30 * i) % 1440
  | 0, _ => rfl
  | n + 1, start => by
    rw [genSlots, genSlots_eq_map n (start + 30), List.range_succ_eq_map,
      List.map_cons, List.map_map]
    refine congrArg₂ _ (by norm_num) (List.map_congr_left fun i _ => ?_)
    simp only [Function.comp_apply, Nat.succ_eq_add_one]
    ring_nf

theorem genSlots_length (start n : Nat) : (genSlots start n).length = n := by
  rw [genSlots_eq_map]; simp

theorem genSlots_lt (start n : Nat) : ∀ x ∈ genSlots start n, x < 1440 := by
  rw [genSlots_eq_map]
  intro x hx
  obtain ⟨i, _, rfl⟩ := List.mem_map.mp hx
  exact Nat.mod_lt _ (by norm_num)

theorem genSlots_nodup (start n : Nat) (hn : n ≤ 48) :
    (genSlots start n).Nodup := by
  rw [genSlots_eq_map]
  refine (List.nodup_range n).map_on fun i hi j hj h => ?_
  rw [List.mem_range] at hi hj
  omega

theorem digitVal_le (c : Char) (v : Nat) (h : digitVal c = some v) : v ≤ 9 := by
  unfold digitVal at h
  split at h
  · cases h
    rename_i hd
    omega
  · cases h

theorem parseHM_lt (s : String) (t : Nat) (h : parseHM s = some t) : t < 1440 := by
  unfold parseHM at h
  split at h <;> try cases h
  all_goals split at h <;> try cases h
  all_goals try (split at h <;> try cases h)
  all_goals
    repeat
      (rename digitVal _ = some _ => hdx
       have := digitVal_le _ _ hdx
       clear hdx)
  all_goals omega

theorem takeWhile_sub {α : Type} (p : α → Bool) :
    ∀ l : List α, List.Sublist (l.takeWhile p) l := by
  intro l
  induction l with
  | nil => simp
  | cons a l ih =>
    rw [List.takeWhile_cons]
    split
    · exact ih.cons₂ a
    · exact List.nil_sublist _

theorem cb_error_state (S : Store) (req : Request) (e : BErr) (S2 : Store)
    (h : create_booking S req = (.error e, S2)) : S2 = S := by
  unfold create_booking at h
  cases hval : validateStage req with
  | error e2 =>
    simp only [hval] at h
    exact (congrArg Prod.snd h).symm
  | ok trip =>
    obtain ⟨pkgId, sd, st⟩ := trip
    simp only [hval] at h
    cases hpkg : S.packages.find? fun p => p.package_id == pkgId with
    | none =>
      simp only [hpkg] at h
      exact (congrArg Prod.snd h).symm
    | some pkg =>
      simp only [hpkg] at h
      cases hpid : resolveProvider S req pkg with
      | none =>
        simp only [hpid] at h
        exact (congrArg Prod.snd h).symm
      | some pid =>
        simp only [hpid] at h
        cases halloc : allocDays S pid 30
            (calculate_required_slots (effectiveDuration S pkg)) sd st [] with
        | error e3 =>
          simp only [halloc] at h
          exact (congrArg Prod.snd h).symm
        | ok l =>
          simp only [halloc] at h
          cases huid : defaultCustomerId S with
          | none =>
            simp only [huid] at h
            exact (congrArg Prod.snd h).symm
          | some uid =>
            simp only [huid] at h
            exact absurd (congrArg Prod.fst h) (by simp)

theorem cb_ok_shape (S : Store) (req : Request) (pay : BookingPayload)
    (S2 : Store) (h : create_booking S req = (.ok pay, S2)) :
    ∃ pkgId sd st pkg pid l uid,
      validateStage req = .ok (pkgId, sd, st) ∧
      (S.packages.find? fun p => p.package_id == pkgId) = some pkg ∧
      resolveProvider S req pkg = some pid ∧
      allocDays S pid 30 (calculate_required_slots (effectiveDuration S pkg))
        sd st [] = .ok l ∧
      defaultCustomerId S = some uid ∧
      pay = { booking_id := S.next_booking_id,
              booking_reference := S.next_booking_id,
              booking_status := "pending", slots_reserved := l.length } ∧
      S2.providers = S.providers ∧
      S2.booking_time_slots = S.booking_time_slots ++ l.map (fun q =>
        { booking_id := S.next_booking_id, provider_id := pid,
          slot_date := q.1, slot_time := q.2, status := "booked" }) ∧
      S2.bookings = S.bookings ++
        [{ booking_id := S.next_booking_id, user_id := uid,
           package_id := pkgId, provider_id := pid,
           booking_type := req.booking_type.getD "",
           booking_status := "pending", scheduled_date := sd,
           service_address := req.service_address.getD "",
           special_instructions := req.special_instructions }] ∧
      S2.next_booking_id = S.next_booking_id + 1 := by
  unfold create_booking at h
  cases hval : validateStage req with
  | error e =>
    simp only [hval] at h
    exact absurd (congrArg Prod.fst h) (by simp)
  | ok trip =>
    obtain ⟨pkgId, sd, st⟩ := trip
    simp only [hval] at h
    cases hpkg : S.packages.find? fun p => p.package_id == pkgId with
    | none =>
      simp only [hpkg] at h
      exact absurd (congrArg Prod.fst h) (by simp)
    | some pkg =>
      simp only [hpkg] at h
      cases hpid : resolveProvider S req pkg with
      | none =>
        simp only [hpid] at h
        exact absurd (congrArg Prod.fst h) (by simp)
      | some pid =>
        simp only [hpid] at h
        cases halloc : allocDays S pid 30
            (calculate_required_slots (effectiveDuration S pkg)) sd st [] with
        | error e =>
          simp only [halloc] at h
          exact absurd (congrArg Prod.fst h) (by simp)
        | ok l =>
          simp only [halloc] at h
          cases huid : defaultCustomerId S with
          | none =>
            simp only [huid] at h
            exact absurd (congrArg Prod.fst h) (by simp)
          | some uid =>
            simp only [huid] at h
            injection h with h1 h2
            injection h1 with h1
            subst h1
            subst h2
            exact ⟨pkgId, sd, st, pkg, pid, l, uid, rfl, hpkg, hpid, halloc,
              rfl, rfl, rfl, rfl, rfl, rfl⟩

theorem allocDays_ok_mem (S : Store) (pid : Nat) :
    ∀ fuel rem d t acc l, allocDays S pid fuel rem d t acc = .ok l →
      ∀ x ∈ l, x ∈ acc ∨ (check_slot_available S pid x.1 x.2).1 = true := by
  intro fuel
  induction fuel with
  | zero =>
    intro rem d t acc l h x hx
    match rem, h with
    | 0, h =>
      cases h
      exact Or.inl hx
  | succ fuel ih =>
    intro rem d t acc l h x hx
    match rem, h with
    | 0, h =>
      cases h
      exact Or.inl hx
    | rem + 1, h =>
      rw [allocDays] at h
      split at h
      · cases h
        rcases List.mem_append.mp hx with hx | hx
        · exact Or.inl hx
        · obtain ⟨u, hu, rfl⟩ := List.mem_map.mp hx
          exact Or.inr (by simpa using List.mem_takeWhile_imp hu)
      · split at h
        · cases h
        · rcases ih _ _ _ _ _ h x hx with hx2 | hx2
          · rcases List.mem_append.mp hx2 with hx3 | hx3
            · exact Or.inl hx3
            · obtain ⟨u, hu, rfl⟩ := List.mem_map.mp hx3
              exact Or.inr (by simpa using List.mem_takeWhile_imp hu)
          · exact Or.inr hx2

theorem allocDays_error_shape (S : Store) (pid : Nat) :
    ∀ fuel rem d t acc e, allocDays S pid fuel rem d t acc = .error e →
      (∃ d2, d ≤ d2 ∧ e = .noAvailabilityOn d2) ∨ e = .notEnoughAvailability := by
  intro fuel
  induction fuel with
  | zero =>
    intro rem d t acc e h
    match rem, h with
    | rem + 1, h =>
      cases h
      exact Or.inr rfl
  | succ fuel ih =>
    intro rem d t acc e h
    match rem, h with
    | rem + 1, h =>
      rw [allocDays] at h
      split at h
      · cases h
      · split at h
        · cases h
          exact Or.inl ⟨d, le_refl d, rfl⟩
        · rcases ih _ _ _ _ _ h with ⟨d2, hd2, he⟩ | he
          · exact Or.inl ⟨d2, by omega, he⟩
          · exact Or.inr he

theorem check_true_lt (S : Store) (pid d t : Nat) (p : Provider)
    (h : (check_slot_available S pid d t).1 = true)
    (hfind : (S.providers.find? fun q => q.provider_id == pid) = some p) :
    countActiveJobs S pid d t < p.max_concurrent_jobs := by
  unfold check_slot_available check_provider_capacity at h
  rw [hfind] at h
  by_cases hle : p.max_concurrent_jobs ≤ countActiveJobs S pid d t
  · simp [hle] at h
  · omega

theorem capBoundB_le (S : Store) (pid d t : Nat) (p : Provider)
    (hcap : capBoundB S = true)
    (hfind : (S.providers.find? fun q => q.provider_id == pid) = some p) :
    countActiveJobs S pid d t ≤ p.max_concurrent_jobs := by
  rcases Nat.eq_zero_or_pos (countActiveJobs S pid d t) with h0 | hpos
  · omega
  · obtain ⟨a, ha⟩ := Finset.card_pos.mp hpos
    rw [List.mem_toFinset] at ha
    obtain ⟨r, hr, rfl⟩ := List.mem_map.mp ha
    obtain ⟨hrmem, hf⟩ := List.mem_filter.mp hr
    simp only [Bool.and_eq_true, beq_iff_eq] at hf
    obtain ⟨⟨⟨hpid, hdate⟩, htime⟩, _⟩ := hf
    unfold capBoundB at hcap
    rw [List.all_eq_true] at hcap
    have hb := hcap r hrmem
    rw [hpid, hdate, htime, hfind] at hb
    simpa using hb

theorem allocDays_step (S : Store) (pid fuel rem d t : Nat)
    (acc : List (Nat × Nat)) :
    allocDays S pid (fuel + 1) (rem + 1) d t acc =
      (let dayTimes := (genSlots t (min (rem + 1) 20)).takeWhile
          fun u => (check_slot_available S pid d u).1
       if rem + 1 - dayTimes.length = 0 then
         .ok (acc ++ dayTimes.map fun u => (d, u))
       else if dayTimes.length = 0 then .error (.noAvailabilityOn d)
       else allocDays S pid fuel (rem + 1 - dayTimes.length) (d + 1) 540
         (acc ++ dayTimes.map fun u => (d, u))) := rfl

theorem allocDays_open_25 (S : Store) (pid d t : Nat)
    (h1 : ∀ u, (check_slot_available S pid d u).1 = true)
    (h2 : ∀ u, (check_slot_available S pid (d + 1) u).1 = true) :
    allocDays S pid 30 25 d t [] =
      .ok (((List.range 20).map fun i => (d, (t + 30 * i) % 1440)) ++
        ((List.range 5).map fun j => (d + 1, 540 + 30 * j))) := by
  have e1 : List.takeWhile (fun u => (check_slot_available S pid d u).1)
      (genSlots t (min (24 + 1) 20)) = genSlots t (min (24 + 1) 20) :=
    List.takeWhile_eq_self_iff.mpr fun u _ => h1 u
  have e2 : List.takeWhile (fun u => (check_slot_available S pid (d + 1) u).1)
      (genSlots 540 (min (4 + 1) 20)) = genSlots 540 (min (4 + 1) 20) :=
    List.takeWhile_eq_self_iff.mpr fun u _ => h2 u
  show allocDays S pid (29 + 1) (24 + 1) d t [] = _
  rw [allocDays_step]
  simp only [e1, genSlots_length]
  norm_num
  show allocDays S pid (28 + 1) (4 + 1) (d + 1) 540 _ = _
  rw [allocDays_step]
  simp only [e2, genSlots_length]
  norm_num
  rw [genSlots_eq_map, genSlots_eq_map, List.map_map, List.map_map]
  congr 1

/-! ## Claim theorems -/

/-- Claim C6: the number of slots a booking requires is
`ceil(effectiveDuration / 30)` — characterised as the least multiple of
30 covering the duration: it is at least 1 for every positive duration,
exact on multiples of 30 (`45 → 2`, `60 → 2`, `61 → 3`); and the
effective duration used by `create_booking` is the stored duration for a
single package, while for a bundle it is the sum of the joined included
packages' durations, falling back to the bundle's own stored duration
when the join is empty. -/
theorem claim_C6_required_slot_count :
    (∀ d : Nat, 0 < d →
      1 ≤ calculate_required_slots d ∧
      d ≤ 30 * calculate_required_slots d ∧
      30 * calculate_required_slots d < d + 30) ∧
    (∀ d : Nat, d % 30 = 0 → calculate_required_slots d = d / 30) ∧
    calculate_required_slots 45 = 2 ∧ calculate_required_slots 60 = 2 ∧
    calculate_required_slots 61 = 3 ∧
    (∀ S pkg, pkg.package_type = .single →
      effectiveDuration S pkg = pkg.duration_minutes) ∧
    (∀ S pkg, pkg.package_type = .bundle →
      ∀ ds, ((S.bundle_items.filter fun bi =>
          bi.bundle_package_id == pkg.package_id).filterMap fun bi =>
        (S.packages.find? fun p =>
          p.package_id == bi.included_package_id).map fun p =>
            p.duration_minutes) = ds →
      effectiveDuration S pkg = if ds = [] then pkg.duration_minutes else ds.sum) := by
  refine ⟨fun d hd => ?_, fun d hd => ?_, rfl, rfl, rfl, fun S pkg hpt => ?_,
    fun S pkg hpt ds hds => ?_⟩
  · unfold calculate_required_slots
    omega
  · unfold calculate_required_slots
    omega
  · unfold effectiveDuration
    rw [hpt]
  · unfold effectiveDuration
    rw [hpt, hds]
    rcases eq_or_ne ds [] with h | h
    · simp [h]
    · simp [h, List.isEmpty_iff]

/-- Witness for C6 at duration 7 (one slot), 90 (exactly three slots)
and a concrete single package. -/
theorem claim_C6_witness :
    (1 ≤ calculate_required_slots 7 ∧ 7 ≤ 30 * calculate_required_slots 7 ∧
      30 * calculate_required_slots 7 < 7 + 30) ∧
    calculate_required_slots 90 = 90 / 30 := by
  exact ⟨claim_C6_required_slot_count.1 7 (by norm_num),
    claim_C6_required_slot_count.2.1 90 (by norm_num)⟩

/-- Claim C9 (implicit): `generate_slot_times` succeeds for every start
time accepted by `strptime "%H:%M"` and every count, and the generated
times wrap modulo 24 hours instead of failing or exceeding 24:00 — so
`generate_slot_times "23:30" 2 = ["23:30", "00:00"]`, a time preceding
the start. -/
theorem claim_C9_midnight_wraparound :
    (∀ s t n, parseHM s = some t →
      generate_slot_times s n =
        some ((List.range n).map fun i => formatHM ((t + 30 * i) % 1440))) ∧
    generate_slot_times "23:30" 2 = some ["23:30", "00:00"] ∧
    parseHM "23:30" = some 1410 ∧ parseHM "00:00" = some 0 ∧ (0 : Nat) < 1410 := by
  refine ⟨fun s t n h => ?_, by decide, by decide, by decide, by norm_num⟩
  unfold generate_slot_times
  rw [h, Option.map_some', genSlots_eq_map, List.map_map]
  rfl

/-- Witness for C9 at start `"09:00"` and count 3. -/
theorem claim_C9_witness :
    generate_slot_times "09:00" 3 =
      some ((List.range 3).map fun i => formatHM ((540 + 30 * i) % 1440)) :=
  claim_C9_midnight_wraparound.1 "09:00" 540 3 (by decide)

/-- Claim C3: `check_slot_available` runs the capacity check first and
short-circuits on its failure — unknown provider fails with "Provider
not found"; a booked-slot count at the exact (provider, date, time) at
or above the provider's limit fails with the at-capacity reason carrying
the observed and limit numbers — and only when capacity passes is the
unavailability check run, failing exactly when some `is_available =
false` record for that provider and date has `start ≤ time < end`. -/
theorem claim_C3_availability_check_order :
    ∀ S pid d t,
      ((S.providers.find? fun p => p.provider_id == pid) = none →
        check_slot_available S pid d t = (false, some "Provider not found")) ∧
      (∀ p, (S.providers.find? fun q => q.provider_id == pid) = some p →
        p.max_concurrent_jobs ≤ countActiveJobs S pid d t →
        check_slot_available S pid d t = (false, some
          ("Provider at capacity (" ++ toString (countActiveJobs S pid d t) ++
            "/" ++ toString p.max_concurrent_jobs ++ " jobs)"))) ∧
      (∀ p, (S.providers.find? fun q => q.provider_id == pid) = some p →
        countActiveJobs S pid d t < p.max_concurrent_jobs →
        (check_slot_available S pid d t =
            (false, some "Provider unavailable at this time") ↔
          ∃ a ∈ S.provider_availability, a.provider_id = pid ∧ a.date = d ∧
            a.start_time ≤ t ∧ t < a.end_time ∧ a.is_available = false) ∧
        (check_slot_available S pid d t = (true, none) ↔
          ¬ ∃ a ∈ S.provider_availability, a.provider_id = pid ∧ a.date = d ∧
            a.start_time ≤ t ∧ t < a.end_time ∧ a.is_available = false)) := by
  intro S pid d t
  refine ⟨fun h => ?_, fun p hp hge => ?_, fun p hp hlt => ?_⟩
  · unfold check_slot_available check_provider_capacity
    rw [h]
  · unfold check_slot_available check_provider_capacity
    rw [hp]
    simp only [if_pos hge]
  · unfold check_slot_available check_provider_capacity
    rw [hp]
    simp only [if_neg (Nat.not_le.mpr hlt)]
    have hiff : (S.provider_availability.any fun a =>
        a.provider_id == pid && a.date == d &&
          decide (a.start_time ≤ t) && decide (t < a.end_time) &&
          a.is_available == false) = true ↔
        ∃ a ∈ S.provider_availability, a.provider_id = pid ∧ a.date = d ∧
          a.start_time ≤ t ∧ t < a.end_time ∧ a.is_available = false := by
      simp [List.any_eq_true, Bool.and_eq_true, and_assoc]
    constructor
    · rw [← hiff]
      cases hb : (S.provider_availability.any fun a =>
          a.provider_id == pid && a.date == d &&
            decide (a.start_time ≤ t) && decide (t < a.end_time) &&
            a.is_available == false) <;> simp [hb]
    · rw [← hiff]
      cases hb : (S.provider_availability.any fun a =>
          a.provider_id == pid && a.date == d &&
            decide (a.start_time ≤ t) && decide (t < a.end_time) &&
            a.is_available == false) <;> simp [hb]

/-- Witness for C3: an unknown provider on the empty store, and a free
slot for provider 1 of `storeA`. -/
theorem claim_C3_witness :
    check_slot_available emptyStore 1 5 540 = (false, some "Provider not found") ∧
    check_slot_available storeA 1 739417 1200 = (true, none) := by
  refine ⟨(claim_C3_availability_check_order emptyStore 1 5 540).1 (by decide), ?_⟩
  exact ((claim_C3_availability_check_order storeA 1 739417 1200).2.2
    { provider_id := 1, max_concurrent_jobs := 1, is_active := true,
      working_hours_start := 540, working_hours_end := 1020 }
    (by decide) (by decide)).2.mpr (by decide)

theorem resolveProvider_bundle_empty (S : Store) (req : Request) (pkg : Package)
    (hreq : req.provider_id = none) (hpt : pkg.package_type = .bundle)
    (he : eligibleBundleProviders S pkg.package_id = []) :
    resolveProvider S req pkg = none := by
  unfold resolveProvider resolveProvider.autoProvider
  rw [hreq, hpt, he]
  rfl

/-- Claim C5: a provider is eligible for a bundle iff it is active,
offers (available) the included package of every bundle item, and offers
at least one included service — so a zero-item bundle matches no
provider; eligible providers are listed at most once when provider ids
are unique; and an empty eligible set is surfaced by `create_booking` as
"No available providers", not an error of the resolver itself. -/
theorem claim_C5_bundle_eligibility :
    (∀ S bid pid,
      pid ∈ eligibleBundleProviders S bid ↔
        ∃ sp ∈ S.providers, sp.provider_id = pid ∧ sp.is_active = true ∧
          (∀ bi ∈ S.bundle_items, bi.bundle_package_id = bid →
            ∃ ps ∈ S.provider_services, ps.provider_id = pid ∧
              ps.package_id = bi.included_package_id ∧ ps.is_available = true) ∧
          (∃ bi ∈ S.bundle_items, bi.bundle_package_id = bid ∧
            ∃ ps ∈ S.provider_services, ps.package_id = bi.included_package_id ∧
              ps.provider_id = pid ∧ ps.is_available = true)) ∧
    (∀ S bid, (S.providers.map fun p => p.provider_id).Nodup →
      (eligibleBundleProviders S bid).Nodup) ∧
    (∀ S bid, (∀ bi ∈ S.bundle_items, bi.bundle_package_id ≠ bid) →
      eligibleBundleProviders S bid = []) ∧
    (∀ S req pkgId sd st pkg, validateStage req = .ok (pkgId, sd, st) →
      (S.packages.find? fun p => p.package_id == pkgId) = some pkg →
      pkg.package_type = .bundle → req.provider_id = none →
      eligibleBundleProviders S pkg.package_id = [] →
      create_booking S req = (.error (.noProviders true), S)) := by
  refine ⟨fun S bid pid => ?_, fun S bid hnd => ?_, fun S bid hno => ?_,
    fun S req pkgId sd st pkg hval hpkg hpt hreq he => ?_⟩
  · unfold eligibleBundleProviders
    simp only [List.mem_map, List.mem_filter, Bool.and_eq_true,
      List.all_eq_true, List.any_eq_true, beq_iff_eq, decide_eq_true_eq]
    constructor
    · rintro ⟨a, ⟨ha, ⟨hact, hall⟩, hany⟩, hid⟩
      subst hid
      refine ⟨a, ha, rfl, hact, fun bi hbi hb => ?_, ?_⟩
      · obtain ⟨ps, hps, ⟨e1, e2⟩, e3⟩ := hall bi ⟨hbi, hb⟩
        exact ⟨ps, hps, e1, e2, e3⟩
      · obtain ⟨bi, hbi, hb, ps, hps, ⟨e1, e2⟩, e3⟩ := hany
        exact ⟨bi, hbi, hb, ps, hps, e1, e2, e3⟩
    · rintro ⟨sp, hmem, rfl, hact, hall, bi, hbi, hb, ps, hps, e1, e2, e3⟩
      refine ⟨sp, ⟨hmem, ⟨hact, fun x hx => ?_⟩,
        ⟨bi, hbi, hb, ps, hps, ⟨e1, e2⟩, e3⟩⟩, rfl⟩
      obtain ⟨f0, f1, g1, g2, g3⟩ := hall x hx.1 hx.2
      exact ⟨f0, f1, ⟨g1, g2⟩, g3⟩
  · unfold eligibleBundleProviders
    exact hnd.sublist ((List.filter_sublist _).map _)
  · unfold eligibleBundleProviders
    have : (S.providers.filter fun sp =>
        sp.is_active &&
        ((S.bundle_items.filter fun bi => bi.bundle_package_id == bid).all
          fun bi => S.provider_services.any fun ps =>
            ps.provider_id == sp.provider_id &&
            ps.package_id == bi.included_package_id && ps.is_available) &&
        (S.bundle_items.any fun bi =>
          bi.bundle_package_id == bid &&
          S.provider_services.any fun ps =>
            ps.package_id == bi.included_package_id &&
            ps.provider_id == sp.provider_id && ps.is_available)) = [] := by
      rw [List.filter_eq_nil_iff]
      intro sp _
      have hany : (S.bundle_items.any fun bi =>
          bi.bundle_package_id == bid &&
          S.provider_services.any fun ps =>
            ps.package_id == bi.included_package_id &&
            ps.provider_id == sp.provider_id && ps.is_available) = false := by
        rw [List.any_eq_false]
        intro bi hbi
        simp [hno bi hbi]
      simp [hany]
    rw [this]
    rfl
  · simp only [create_booking, hval, hpkg,
      resolveProvider_bundle_empty S req pkg hreq hpt he, hpt]
    rfl

/-- Claim C2: the allocation loop of `create_booking` can only fail
with "No availability on {date}" (for some date at or after the start)
or "Not enough availability within 30 days", and on either failure no
Booking row and no BookingTimeSlot row is persisted — the store is
returned unchanged. -/
theorem claim_C2_all_or_nothing :
    (∀ S pid fuel rem d t acc e,
      allocDays S pid fuel rem d t acc = .error e →
        (∃ d2, d ≤ d2 ∧ e = .noAvailabilityOn d2) ∨ e = .notEnoughAvailability) ∧
    (∀ S req d S2,
      create_booking S req = (.error (.noAvailabilityOn d), S2) ∨
        create_booking S req = (.error .notEnoughAvailability, S2) →
      S2 = S ∧ S2.bookings = S.bookings ∧
        S2.booking_time_slots = S.booking_time_slots) := by
  refine ⟨fun S pid fuel rem d t acc e h =>
    allocDays_error_shape S pid fuel rem d t acc e h,
    fun S req d S2 h => ?_⟩
  have h2 : S2 = S := by
    rcases h with h | h
    · exact cb_error_state S req _ S2 h
    · exact cb_error_state S req _ S2 h
  exact ⟨h2, by rw [h2], by rw [h2]⟩

/-- Witness for C2: provider 1 of `storeFull` is at capacity at the
requested 09:00 slot, so the attempt fails and the store is unchanged. -/
theorem claim_C2_witness :
    (create_booking storeFull reqB).2 = storeFull ∧
    (create_booking storeFull reqB).2.booking_time_slots =
      storeFull.booking_time_slots :=
  ⟨(claim_C2_all_or_nothing.2 storeFull reqB 739417
      (create_booking storeFull reqB).2 (Or.inl (by decide))).1,
   (claim_C2_all_or_nothing.2 storeFull reqB 739417
      (create_booking storeFull reqB).2 (Or.inl (by decide))).2.2⟩

/-- Counterexample for C4: `create_booking` on `storeA` (working hours
09:00-17:00) accepts `reqA` at 20:00 and reserves the 20:00-20:30 slot,
which lies entirely after `working_hours_end` — reservations are not
confined to the provider's working hours. -/
theorem claim_C4_counterexample :
    (create_booking storeA reqA).1 =
      .ok { booking_id := 100, booking_reference := 100,
            booking_status := "pending", slots_reserved := 1 } ∧
    ({ booking_id := 100, provider_id := 1, slot_date := 739417,
       slot_time := 1200, status := "booked" } : SlotRow) ∈
      (create_booking storeA reqA).2.booking_time_slots ∧
    (∀ p ∈ storeA.providers, p.working_hours_end < 1200 + 30) := by
  refine ⟨by decide, by decide, by decide⟩

/-- Claim C4 as amended: every slot row added by a successful
`create_booking` passed `check_slot_available` (capacity and explicit
unavailability) at the pre-state — these are the only constraints the
allocator enforces; provider working hours are not consulted. -/
theorem claim_C4_amended_reserved_slots_checked :
    ∀ S req pay S2, create_booking S req = (.ok pay, S2) →
      ∀ r ∈ S2.booking_time_slots, r ∈ S.booking_time_slots ∨
        (check_slot_available S r.provider_id r.slot_date r.slot_time).1 = true := by
  intro S req pay S2 h r hr
  obtain ⟨pkgId, sd, st, pkg, pid, l, uid, _, _, _, halloc, _, _, _, hslots,
    _, _⟩ := cb_ok_shape S req pay S2 h
  rw [hslots] at hr
  rcases List.mem_append.mp hr with hr | hr
  · exact Or.inl hr
  · obtain ⟨x, hx, rfl⟩ := List.mem_map.mp hr
    rcases allocDays_ok_mem S pid 30 _ sd st [] l halloc x hx with h0 | hck
    · cases h0
    · exact Or.inr hck

/-- Witness for C4's amended theorem at the booked 20:00 slot of
`storeA`/`reqA`. -/
theorem claim_C4_witness :
    ({ booking_id := 100, provider_id := 1, slot_date := 739417,
       slot_time := 1200, status := "booked" } : SlotRow) ∈
        storeA.booking_time_slots ∨
      (check_slot_available storeA 1 739417 1200).1 = true :=
  claim_C4_amended_reserved_slots_checked storeA reqA
    { booking_id := 100, booking_reference := 100,
      booking_status := "pending", slots_reserved := 1 }
    (create_booking storeA reqA).2 (by decide) _ (by decide)

/-- Claim C8 as amended: every error of the pre-store validation stage —
a missing required field, a malformed or misaligned time, a malformed
date — is returned by `create_booking` identically for every store, with
the store untouched (the stage is a pure function of the request, run
before any store access, and never retried); but no past-date check
exists: `create_booking` never consults the current date. -/
theorem claim_C8_amended_validation_before_store :
    (∀ S req e, validateStage req = .error e →
      create_booking S req = (.error e, S)) ∧
    (∀ req e, validateStage req = .error e →
      (∃ f, e = .missingField f) ∨ (∃ m, e = .invalidTime m) ∨ e = .badDate) := by
  constructor
  · intro S req e h
    simp only [create_booking, h]
  · intro req e h
    unfold validateStage at h
    repeat' split at h
    all_goals cases h
    all_goals
      first
      | exact Or.inl ⟨_, rfl⟩
      | exact Or.inr (Or.inl ⟨_, rfl⟩)
      | exact Or.inr (Or.inr rfl)

/-- Witness for C8's amended theorem: a request missing `package_id`
fails identically on the empty store. -/
theorem claim_C8_witness :
    create_booking emptyStore reqMissing =
      (.error (.missingField "package_id"), emptyStore) :=
  claim_C8_amended_validation_before_store.1 emptyStore reqMissing
    (.missingField "package_id") (by decide)

/-- Counterexample for C8: `reqPast` carries start date 2020-01-01
(ordinal 737425, years before any plausible "today"), passes the whole
validation stage, and `create_booking` persists a booking for it —
there is no past-date `ValidationError` in `create_booking`. -/
theorem claim_C8_counterexample :
    validateStage reqPast = .ok (7, 737425, 540) ∧
    (create_booking storeA reqPast).1 =
      .ok { booking_id := 100, booking_reference := 100,
            booking_status := "pending", slots_reserved := 1 } ∧
    (create_booking storeA reqPast).2 ≠ storeA := by
  refine ⟨by decide, by decide, by decide⟩

/-- Claim C10: a successful `create_booking` attributes the new Booking
row to the first store-returned user holding the `customer` role (the
request carries no caller identity), and when the allocation succeeded
but no customer user exists the call fails with "No customer users
found", leaving the store unchanged. -/
theorem claim_C10_default_customer_user :
    (∀ S req pay S2, create_booking S req = (.ok pay, S2) →
      ∃ uid, defaultCustomerId S = some uid ∧
        ∃ row, S2.bookings = S.bookings ++ [row] ∧ row.user_id = uid ∧
          row.booking_id = pay.booking_id) ∧
    (∀ S req pkgId sd st pkg pid l,
      validateStage req = .ok (pkgId, sd, st) →
      (S.packages.find? fun p => p.package_id == pkgId) = some pkg →
      resolveProvider S req pkg = some pid →
      allocDays S pid 30 (calculate_required_slots (effectiveDuration S pkg))
        sd st [] = .ok l →
      defaultCustomerId S = none →
      create_booking S req = (.error .noCustomerUsers, S)) ∧
    (∀ S r, (S.roles.find? fun q => q.role_name == "customer") = some r →
      defaultCustomerId S = ((S.users.filter fun u =>
        S.user_roles.any fun ur =>
          ur.user_id == u.id && ur.role_id == r.role_id).map fun u =>
            u.id).head?) := by
  refine ⟨fun S req pay S2 h => ?_,
    fun S req pkgId sd st pkg pid l hval hpkg hpid halloc huid => ?_,
    fun S r h => ?_⟩
  · obtain ⟨pkgId, sd, st, pkg, pid, l, uid, _, _, _, _, huid, hpay, _, _,
      hbk, _⟩ := cb_ok_shape S req pay S2 h
    exact ⟨uid, huid, _, hbk, rfl, by simp [hpay]⟩
  · simp only [create_booking, hval, hpkg, hpid, halloc, huid]
  · unfold defaultCustomerId
    rw [h]

/-- Witness for C10 on `storeA`/`reqA`: the booking is attributed to
user 11, the only customer. -/
theorem claim_C10_witness :
    ∃ uid, defaultCustomerId storeA = some uid ∧
      ∃ row, (create_booking storeA reqA).2.bookings =
          storeA.bookings ++ [row] ∧ row.user_id = uid ∧
        row.booking_id = 100 :=
  claim_C10_default_customer_user.1 storeA reqA
    { booking_id := 100, booking_reference := 100,
      booking_status := "pending", slots_reserved := 1 }
    (create_booking storeA reqA).2 (by decide)

/-- Witness for C5 on `storeB`: provider 2 (offering all three included
packages) is eligible for bundle 20; provider 1 (offering two of three)
is not; the eligible list has no duplicates; and a bundle with no items
(id 99) matches no provider. -/
theorem claim_C5_witness :
    2 ∈ eligibleBundleProviders storeB 20 ∧
    1 ∉ eligibleBundleProviders storeB 20 ∧
    (eligibleBundleProviders storeB 20).Nodup ∧
    eligibleBundleProviders storeB 99 = [] := by
  refine ⟨?_, by decide, claim_C5_bundle_eligibility.2.1 storeB 20 (by decide),
    claim_C5_bundle_eligibility.2.2.1 storeB 99 (by decide)⟩
  exact (claim_C5_bundle_eligibility.1 storeB 20 2).mpr
    ⟨{ provider_id := 2, max_concurrent_jobs := 1, is_active := true,
       working_hours_start := 540, working_hours_end := 1020 },
     by decide, rfl, rfl, by decide, by decide⟩

/-- Claim C1: for a package requiring 25 slots, when every slot of the
start date and of the following calendar day passes the availability
check, `create_booking` reserves exactly 25 slots — 20 consecutive
30-minute slots on the start date beginning at the requested start time
followed by 5 consecutive slots on the next day beginning at 09:00
(minute 540) — contiguous within each day because the allocator stops at
the first unavailable slot of a day. -/
theorem claim_C1_multiday_spillover :
    ∀ S req pkgId d t pkg pid uid,
      validateStage req = .ok (pkgId, d, t) →
      (S.packages.find? fun p => p.package_id == pkgId) = some pkg →
      calculate_required_slots (effectiveDuration S pkg) = 25 →
      resolveProvider S req pkg = some pid →
      (∀ u, (check_slot_available S pid d u).1 = true) →
      (∀ u, (check_slot_available S pid (d + 1) u).1 = true) →
      defaultCustomerId S = some uid →
      (create_booking S req).1 =
        .ok { booking_id := S.next_booking_id,
              booking_reference := S.next_booking_id,
              booking_status := "pending", slots_reserved := 25 } ∧
      (create_booking S req).2.booking_time_slots =
        S.booking_time_slots ++
          (((List.range 20).map fun i =>
            ({ booking_id := S.next_booking_id, provider_id := pid,
               slot_date := d, slot_time := (t + 30 * i) % 1440,
               status := "booked" } : SlotRow)) ++
           ((List.range 5).map fun j =>
            ({ booking_id := S.next_booking_id, provider_id := pid,
               slot_date := d + 1, slot_time := 540 + 30 * j,
               status := "booked" } : SlotRow))) := by
  intro S req pkgId d t pkg pid uid hval hpkg h25 hpid h1 h2 huid
  have halloc := allocDays_open_25 S pid d t h1 h2
  constructor
  · simp only [create_booking, hval, hpkg, h25, hpid, halloc, huid]
    simp [List.length_append]
  · simp only [create_booking, hval, hpkg, h25, hpid, halloc, huid]
    rw [List.map_append, List.map_map, List.map_map]
    rfl

/-- Witness for C1 on `storeOpen`/`reqC`: 20 slots on 2025-06-15 from
09:00 and 5 slots on 2025-06-16 from 09:00. -/
theorem claim_C1_witness :
    (create_booking storeOpen reqC).1 =
      .ok { booking_id := 100, booking_reference := 100,
            booking_status := "pending", slots_reserved := 25 } ∧
    (create_booking storeOpen reqC).2.booking_time_slots =
      storeOpen.booking_time_slots ++
        (((List.range 20).map fun i =>
          ({ booking_id := 100, provider_id := 1,
             slot_date := 739417, slot_time := (540 + 30 * i) % 1440,
             status := "booked" } : SlotRow)) ++
         ((List.range 5).map fun j =>
          ({ booking_id := 100, provider_id := 1,
             slot_date := 739417 + 1, slot_time := 540 + 30 * j,
             status := "booked" } : SlotRow))) :=
  claim_C1_multiday_spillover storeOpen reqC 8 739417 540
    { package_id := 8, duration_minutes := 750, package_type := .single }
    1 11 (by decide) (by decide) (by decide) (by decide)
    (fun u => rfl) (fun u => rfl) (by decide)

/-- Claim C7: (1) from any store satisfying the capacity invariant, one
`create_booking` call — success or failure — leaves every
(provider, date, time) key's distinct-booking count at or below that
provider's `max_concurrent_jobs`, so the bound holds across any
sequential execution; (2) a booking attempt whose first required slot is
at capacity fails with the "No availability on {date}" capacity error;
(3) a failed attempt leaves the store unchanged — it reserves nothing. -/
theorem claim_C7_sequential_capacity_invariant :
    (∀ S req, capBoundB S = true →
      ∀ pid d t p, (S.providers.find? fun q => q.provider_id == pid) = some p →
        countActiveJobs (create_booking S req).2 pid d t ≤
          p.max_concurrent_jobs) ∧
    (∀ S pid d t p rem,
      (S.providers.find? fun q => q.provider_id == pid) = some p →
      p.max_concurrent_jobs ≤ countActiveJobs S pid d t → t < 1440 →
      allocDays S pid 30 (rem + 1) d t [] = .error (.noAvailabilityOn d)) ∧
    (∀ S req e S2, create_booking S req = (.error e, S2) → S2 = S) := by
  refine ⟨fun S req hcap pid d t p hfind => ?_,
    fun S pid d t p rem hfind hle ht => ?_,
    fun S req e S2 h => cb_error_state S req e S2 h⟩
  · rcases hres : create_booking S req with ⟨res, S2⟩
    cases res with
    | error e =>
      show countActiveJobs S2 pid d t ≤ p.max_concurrent_jobs
      rw [cb_error_state S req e S2 hres]
      exact capBoundB_le S pid d t p hcap hfind
    | ok pay =>
      show countActiveJobs S2 pid d t ≤ p.max_concurrent_jobs
      obtain ⟨pkgId, sd, st, pkg, pidR, l, uid, _, _, _, halloc, _, _, _,
        hslots, _, _⟩ := cb_ok_shape S req pay S2 hres
      have hold : countActiveJobs S pid d t ≤ p.max_concurrent_jobs :=
        capBoundB_le S pid d t p hcap hfind
      unfold countActiveJobs
      rw [hslots, List.filter_append, List.map_append, List.toFinset_append]
      refine le_trans (Finset.card_union_le _ _) ?_
      have hA : ((S.booking_time_slots.filter fun r =>
          r.provider_id == pid && r.slot_date == d && r.slot_time == t &&
            r.status == "booked").map fun r => r.booking_id).toFinset.card =
          countActiveJobs S pid d t := rfl
      rw [hA]
      set newRows := l.map (fun q =>
        ({ booking_id := S.next_booking_id, provider_id := pidR,
           slot_date := q.1, slot_time := q.2,
           status := "booked" } : SlotRow)) with hnewRows
      by_cases hB : newRows.filter (fun r =>
          r.provider_id == pid && r.slot_date == d && r.slot_time == t &&
            r.status == "booked") = []
      · rw [hB]
        simpa using hold
      · obtain ⟨r0, hr0⟩ := List.exists_mem_of_ne_nil _ hB
        have hr0f := List.mem_filter.mp hr0
        obtain ⟨x, hx, hxr⟩ := List.mem_map.mp hr0f.1
        have hcond := hr0f.2
        rw [← hxr] at hcond
        simp only [Bool.and_eq_true, beq_iff_eq] at hcond
        obtain ⟨⟨⟨hpidx, hdx⟩, htx⟩, _⟩ := hcond
        have hck : (check_slot_available S pidR x.1 x.2).1 = true := by
          rcases allocDays_ok_mem S pidR 30 _ sd st [] l halloc x hx with h0 | h
          · cases h0
          · exact h
        rw [hpidx, hdx, htx] at hck
        have hlt : countActiveJobs S pid d t < p.max_concurrent_jobs :=
          check_true_lt S pid d t p hck hfind
        have hcard1 : ((newRows.filter fun r =>
            r.provider_id == pid && r.slot_date == d && r.slot_time == t &&
              r.status == "booked").map fun r =>
                r.booking_id).toFinset.card ≤ 1 := by
          have hsub : ((newRows.filter fun r =>
              r.provider_id == pid && r.slot_date == d && r.slot_time == t &&
                r.status == "booked").map fun r =>
                  r.booking_id).toFinset ⊆ {S.next_booking_id} := by
            intro y hy
            rw [List.mem_toFinset] at hy
            obtain ⟨r, hrf, rfl⟩ := List.mem_map.mp hy
            have hrn : r ∈ newRows := (List.mem_filter.mp hrf).1
            obtain ⟨x2, _, rfl⟩ := List.mem_map.mp hrn
            simp
          simpa using Finset.card_le_card hsub
        omega
  · have hfalse : (check_slot_available S pid d t).1 = false := by
      unfold check_slot_available check_provider_capacity
      rw [hfind]
      simp [hle]
    show allocDays S pid (29 + 1) (rem + 1) d t [] = _
    rw [allocDays_step]
    obtain ⟨k, hk⟩ : ∃ k, min (rem + 1) 20 = k + 1 := ⟨min rem 19, by omega⟩
    rw [hk, genSlots, Nat.mod_eq_of_lt ht,
      List.takeWhile_cons_of_neg (by simp [hfalse])]
    simp

/-- Witness for C7 on `storeFull` (provider 1 already holds the 09:00
slot of 2025-06-15 and allows one concurrent job): a second attempt for
that slot stays within the bound and the allocation fails. -/
theorem claim_C7_witness :
    countActiveJobs (create_booking storeFull reqB).2 1 739417 540 ≤ 1 ∧
    allocDays storeFull 1 30 1 739417 540 [] =
      .error (.noAvailabilityOn 739417) :=
  ⟨claim_C7_sequential_capacity_invariant.1 storeFull reqB (by decide)
      1 739417 540
      { provider_id := 1, max_concurrent_jobs := 1, is_active := true,
        working_hours_start := 540, working_hours_end := 1020 } (by decide),
   claim_C7_sequential_capacity_invariant.2.1 storeFull 1 739417 540
      { provider_id := 1, max_concurrent_jobs := 1, is_active := true,
        working_hours_start := 540, working_hours_end := 1020 } 0
      (by decide) (by decide) (by decide)⟩

end Booking
